import Mathlib

/-!
# Shallow embedding of the RTMP Stream Orchestration Engine

This file embeds the `RTMPStreamManager` class of the standalone server
(`src/unnamed/part_000`, lines 1052-1534) in Lean 4 and proves the spec's
claims about it.  In-memory engine state (`this.activeStreams`,
`this.streamConfigs`, `this.loopEnabled`, `this.uptimeInterval`,
`this.streamStartTime`, `this.currentVideoIndex`, `this.playlist`) becomes an
explicit `EngineState`; the single logically-latest row of the persisted
`stream_status` table becomes `StreamStatusRow`; the external collaborators
(the `videos` table, the active `stream_configs` row, the uploads directory)
are carried as extra fields of a `World`.  Asynchronous process lifecycle
callbacks (`close`, `error`) are modelled as state transformers that receive
the world as it is when the event fires.  JavaScript truthiness (`x || d`,
`if (x)`) is modelled explicitly on `Option`-typed fields.
-/

/-- JS `v || d` for strings: `null`/`undefined` and the empty string are
falsy. -/
def jsOrStr (v : Option String) (d : String) : String :=
  match v with
  | none => d
  | some s => if s = "" then d else s

/-- JS `v || d` for numbers: `null`/`undefined` and `0` are falsy. -/
def jsOrNat (v : Option Nat) (d : Nat) : Nat :=
  match v with
  | none => d
  | some n => if n = 0 then d else n

/-- JS `v || d` for integer values (used for `additionalData.viewerCount || 0`). -/
def jsOrInt (v : Option Int) (d : Int) : Int :=
  match v with
  | none => d
  | some n => if n = 0 then d else n

/-- JS `String.prototype.toLowerCase` restricted to the ASCII platform
identifiers the engine compares against: lower-case every character. -/
def jsToLower (s : String) : String := String.mk (s.data.map Char.toLower)

/-- JS `String.prototype.padStart(2, '0')`: left-pad with `'0'` up to
length 2 (a no-op on strings already at least that long). -/
def padStart2 (s : String) : String :=
  String.mk (List.replicate (2 - s.length) '0') ++ s

/-- A row of the `videos` table, restricted to the columns the engine
reads (`id`, `title`, `filename`). -/
structure Video where
  id : Nat
  title : String
  filename : String
deriving DecidableEq, Repr

/-- The `config` object accepted by `startStream(videoId, config)`:
platform identifier, secret stream key, optional custom RTMP URL,
resolution, framerate, bitrate.  Fields that JS call sites may omit or
pass `null` are `Option`s. -/
structure StreamConfig where
  platform : Option String
  streamKey : String
  rtmpUrl : Option String
  resolution : Option String
  framerate : Option Nat
  bitrate : Option Nat
deriving DecidableEq, Repr

/-- The active `stream_configs` row as read back by `playNextVideo`
(snake_case database columns). -/
structure DbStreamConfig where
  platform : Option String
  stream_key : String
  rtmp_url : Option String
  resolution : Option String
  framerate : Option Nat
  bitrate : Option Nat
deriving DecidableEq, Repr

/-- `playNextVideo` (lines 1284-1291) repackages the `stream_configs` row
into the camelCase `config` object handed to `startStream`. -/
def dbConfigToStreamConfig (c : DbStreamConfig) : StreamConfig :=
  { platform := c.platform
    streamKey := c.stream_key
    rtmpUrl := c.rtmp_url
    resolution := c.resolution
    framerate := c.framerate
    bitrate := c.bitrate }

/-- In-memory state of `RTMPStreamManager`.  The `activeStreams` map is
represented by its list of keys (the process handles themselves are
external); `streamConfigs` keeps the per-key config; `uptimeIntervalActive`
stands for `this.uptimeInterval !== null`; times are epoch milliseconds. -/
structure EngineState where
  activeStreams : List String
  streamConfigs : List (String × StreamConfig)
  loopEnabled : Bool
  uptimeIntervalActive : Bool
  streamStartTime : Option Nat
  currentVideoIndex : Int
  playlist : List Video
deriving DecidableEq, Repr

/-- The engine state produced by `new RTMPStreamManager()` (constructor,
lines 1054-1062). -/
def newEngineState : EngineState :=
  { activeStreams := []
    streamConfigs := []
    loopEnabled := false
    uptimeIntervalActive := false
    streamStartTime := none
    currentVideoIndex := 0
    playlist := [] }

/-- The logically-latest `stream_status` row (the engine always reads and
writes the row with the maximal id), with exactly the columns of the
schema this same file creates at lines 1571-1581: `status`,
`viewer_count`, `uptime`, `current_video_id`, `started_at`,
`loop_playlist`.  There is no error-message column. -/
structure StreamStatusRow where
  status : String
  viewer_count : Int
  uptime : String
  current_video_id : Option Nat
  started_at : Option Nat
  loop_playlist : Bool
deriving DecidableEq, Repr

/-- The `additionalData` bag accepted by `updateStreamStatus`; a `some`
field means the corresponding camelCase key is present on the JS
object. -/
structure AdditionalData where
  viewerCount : Option Int
  uptime : Option String
  loopPlaylist : Option Bool
  errorMessage : Option String
deriving DecidableEq, Repr

/-- `updateStreamStatus(status, videoId, additionalData)`
(lines 1504-1533): builds the update record `{status, current_video_id,
started_at, viewer_count, uptime, loop_playlist, ...additionalData}` and
issues an UPDATE whose SET clause names one column per key.  The spread
re-adds the camelCase keys themselves: `viewerCount`, `loopPlaylist` and
(when present) `errorMessage` are not columns of `stream_status` — the
schema at lines 1571-1581 has only the snake_case columns and no
error-message column at all — so whenever the bag carries one of those
keys the UPDATE throws "column does not exist", the catch at line 1530
swallows it, and the row is left untouched.  (The spread's `uptime` key
coincides with the real `uptime` column and is harmless.)  Only a call
whose bag has none of the camelCase-only keys performs the write:
`started_at` set to now only for `'live'`, `viewer_count` from
`additionalData.viewerCount || 0`, `uptime` defaulting to `'00:00:00'`,
`loop_playlist` from `additionalData.loopPlaylist` when defined and
`false` otherwise. -/
def updateStreamStatus (row : StreamStatusRow) (status : String)
    (videoId : Option Nat) (a : AdditionalData) (now : Nat) : StreamStatusRow :=
  if a.viewerCount.isSome || a.loopPlaylist.isSome || a.errorMessage.isSome then
    row
  else
    { status := status
      current_video_id := videoId
      started_at := if status = "live" then some now else none
      viewer_count := jsOrInt a.viewerCount 0
      uptime := jsOrStr a.uptime "00:00:00"
      loop_playlist := a.loopPlaylist.getD false }

/-- `getPlatformRTMPUrl(platform, customUrl)` (lines 1299-1312):
`switch (platform?.toLowerCase())` with fixed endpoints for
youtube/twitch/facebook, `customUrl || localhost` for `'custom'`, and
`customUrl || youtube` for everything else (including a missing
platform). -/
def getPlatformRTMPUrl (platform : Option String) (customUrl : Option String) :
    String :=
  let p := match platform with
    | some s => jsToLower s
    | none => ""
  if p = "youtube" then "rtmp://a.rtmp.youtube.com/live2"
  else if p = "twitch" then "rtmp://live.twitch.tv/app"
  else if p = "facebook" then "rtmps://live-api-s.facebook.com:443/rtmp"
  else if p = "custom" then jsOrStr customUrl "rtmp://localhost:1935/live"
  else jsOrStr customUrl "rtmp://a.rtmp.youtube.com/live2"

/-- Lines 1089-1090 of `startStream`: the final destination is the
platform URL composed with the secret stream key. -/
def fullRtmpUrl (config : StreamConfig) : String :=
  getPlatformRTMPUrl config.platform config.rtmpUrl ++ "/" ++ config.streamKey

/-- `getResolutionHeight(resolution)` (lines 1352-1370): fixed table with
default 720. -/
def getResolutionHeight (resolution : String) : Nat :=
  if resolution = "1920x1080" ∨ resolution = "1080p" then 1080
  else if resolution = "1280x720" ∨ resolution = "720p" then 720
  else if resolution = "854x480" ∨ resolution = "480p" then 480
  else if resolution = "640x360" ∨ resolution = "360p" then 360
  else 720

/-- `buildFFmpegArgs(inputPath, outputUrl, config)` (lines 1314-1350).
The scale filter is appended only under the JS-truthy guard
`config.resolution && config.resolution !== 'original'`. -/
def buildFFmpegArgs (inputPath outputUrl : String) (config : StreamConfig) :
    List String :=
  let bitrate := jsOrNat config.bitrate 2500
  let framerate := jsOrNat config.framerate 30
  let args :=
    ["-stream_loop", "-1", "-re", "-i", inputPath,
     "-c:v", "libx264", "-preset", "veryfast", "-tune", "zerolatency",
     "-pix_fmt", "yuv420p",
     "-b:v", toString bitrate ++ "k",
     "-maxrate", toString bitrate ++ "k",
     "-bufsize", toString (bitrate * 2) ++ "k",
     "-r", toString framerate,
     "-g", toString (framerate * 2)]
  let args :=
    match config.resolution with
    | some r =>
        if r ≠ "" ∧ r ≠ "original" then
          args ++ ["-vf", "scale=-2:" ++ toString (getResolutionHeight r)]
        else args
    | none => args
  args ++
    ["-c:a", "aac", "-b:a", "128k", "-ar", "44100", "-ac", "2",
     "-f", "flv", "-reconnect", "1", "-reconnect_streamed", "1",
     "-reconnect_delay_max", "5", outputUrl]

/-- `formatUptime(milliseconds)` (lines 1495-1502). -/
def formatUptime (milliseconds : Nat) : String :=
  let seconds := milliseconds / 1000
  let hours := seconds / 3600
  let minutes := (seconds % 3600) / 60
  let secs := seconds % 60
  padStart2 (toString hours) ++ ":" ++ padStart2 (toString minutes) ++ ":" ++
    padStart2 (toString secs)

/-- `stopUptimeTracking()` (lines 1487-1493): clear the interval and null
the start time. -/
def stopUptimeTrackingE (s : EngineState) : EngineState :=
  { s with uptimeIntervalActive := false, streamStartTime := none }

/-- `startUptimeTracking()` (lines 1452-1459, state effect): record the
start time, then call `stopUptimeTracking()` — whose final
`this.streamStartTime = null` (line 1492) sits outside the interval
check and so unconditionally nulls the start time again — then install
the fresh interval.  The net effect is an active interval with a null
start time. -/
def startUptimeTrackingE (s : EngineState) (now : Nat) : EngineState :=
  let s1 := { s with streamStartTime := some now }
  let s2 := stopUptimeTrackingE s1
  { s2 with uptimeIntervalActive := true }

/-- `stopStream(streamKey)` (lines 1199-1224): with a key, signal and
delete that entry; with no key, signal and clear every entry; in both
cases stop uptime tracking and report success. -/
def stopStreamE (s : EngineState) (streamKey : Option String) :
    EngineState × Bool :=
  match streamKey with
  | some k =>
      (stopUptimeTrackingE { s with activeStreams := s.activeStreams.filter (· ≠ k) },
       true)
  | none =>
      (stopUptimeTrackingE { s with activeStreams := [] }, true)

/-- `stopAllStreams()` (lines 1226-1228) delegates to `stopStream()` with
no key. -/
def stopAllStreamsE (s : EngineState) : EngineState × Bool :=
  stopStreamE s none

/-- `setLoopEnabled(enabled)` (lines 1230-1233). -/
def setLoopEnabledE (s : EngineState) (enabled : Bool) : EngineState :=
  { s with loopEnabled := enabled }

/-- `isStreaming()` (lines 1239-1241). -/
def isStreamingE (s : EngineState) : Bool :=
  s.activeStreams ≠ []

/-- One tick of the reconciler interval (lines 1459-1484): a write of
`(uptime, viewer_count)` happens only when a start time is recorded, the
registry is non-empty, and the persisted status is `'live'`.
`randFloor` stands for `Math.floor(Math.random() * 100)`. -/
def uptimeTick (s : EngineState) (row : StreamStatusRow) (now : Nat)
    (randFloor : Nat) : Option (String × Int) :=
  match s.streamStartTime with
  | some t0 =>
      if s.activeStreams ≠ [] then
        if row.status = "live" then
          some (formatUptime (now - t0),
            max 0 (50 + ((randFloor : Int) - 50)))
        else none
      else none
  | none => none

/-- The world the engine acts on: its own state, the latest persisted
status row, and the external collaborators it consults — the `videos`
table (in `playlist_order`), the currently-active `stream_configs` row,
and the set of filenames present in the uploads directory. -/
structure World where
  engine : EngineState
  row : StreamStatusRow
  videosTable : List Video
  activeConfig : Option DbStreamConfig
  uploadsOnDisk : List String
deriving DecidableEq, Repr

/-- `startStream(videoId, config)` (lines 1064-1197), as a transformer of
the world, returning the new world and the boolean the caller sees.
`childAvail` models whether `require('child_process')` succeeds (if not,
the mock path at lines 1102-1109 registers a mock session and returns
early); `spawnThrows` models a synchronous process-launch failure, which
lands in the `catch` and returns `false`.  A missing video row or a
missing file throws before any mutation, so the `catch` returns `false`
on the unchanged world. -/
def startStreamModel (w : World) (videoId : Nat) (config : StreamConfig)
    (now : Nat) (childAvail spawnThrows : Bool) : World × Bool :=
  match w.videosTable.find? (fun v => v.id = videoId) with
  | none => (w, false)
  | some video =>
      if video.filename ∉ w.uploadsOnDisk then (w, false)
      else
        let streamKey := "video_" ++ toString videoId
        let e0 := w.engine
        let e1 := if streamKey ∈ e0.activeStreams then (stopStreamE e0 (some streamKey)).1
                  else e0
        if childAvail = false then
          -- mock path: register a mock session, start uptime tracking, return
          let e2 := { e1 with activeStreams := e1.activeStreams ++ [streamKey] }
          let e3 := startUptimeTrackingE { e2 with streamStartTime := some now } now
          ({ w with engine := e3 }, true)
        else if spawnThrows then
          ({ w with engine := e1 }, false)
        else
          let e2 := { e1 with
            activeStreams := e1.activeStreams ++ [streamKey]
            streamConfigs :=
              (e1.streamConfigs.filter (fun q : String × StreamConfig => q.1 ≠ streamKey)) ++
                [(streamKey, config)] }
          let e3 := startUptimeTrackingE { e2 with streamStartTime := some now } now
          -- loadPlaylist(): refresh the snapshot from the videos table
          let e4 := { e3 with playlist := w.videosTable }
          ({ w with engine := e4 }, true)

/-- `playNextVideo()` (lines 1254-1297): no-op unless loop mode is on and
the snapshot is non-empty; otherwise look up the persisted current item in
the snapshot (JS `findIndex`, `-1` when absent; the lookup is skipped when
the persisted reference is falsy), step the cursor by one modulo the
snapshot length, persist the new current item, and — only when an active
profile exists — start a session for it. -/
def playNextVideo (w : World) (now : Nat) (childAvail spawnThrows : Bool) :
    World :=
  if w.engine.loopEnabled = false ∨ w.engine.playlist = [] then w
  else
    let idx : Int :=
      match w.row.current_video_id with
      | some cid =>
          if cid = 0 then w.engine.currentVideoIndex
          else
            match w.engine.playlist.findIdx? (fun v => v.id = cid) with
            | some n => (n : Int)
            | none => -1
      | none => w.engine.currentVideoIndex
    let nextIdx : Int := (idx + 1) % (w.engine.playlist.length : Int)
    let w1 := { w with engine := { w.engine with currentVideoIndex := nextIdx } }
    match w1.engine.playlist.get? nextIdx.toNat with
    | none => w1
    | some nextVideo =>
        let w2 := { w1 with row := { w1.row with current_video_id := some nextVideo.id } }
        match w2.activeConfig with
        | none => w2
        | some c =>
            (startStreamModel w2 nextVideo.id (dbConfigToStreamConfig c) now
              childAvail spawnThrows).1

/-- The `close` callback registered by `startStream` (lines 1148-1165) for
registry key `streamKey`: delete the registry entry, then branch on the
loop flag as it is now — hand off to `playNextVideo` when enabled,
otherwise stop uptime tracking and attempt to reconcile the persisted
status to `'offline'` (the attempt's UPDATE carries the camelCase bag
and therefore never lands — see `updateStreamStatus`).  The exit code is
received but never examined.  The returned boolean is a ghost
observation recording whether the playlist advancer was invoked. -/
def closeHandlerModel (w : World) (streamKey : String) (code : Int)
    (now : Nat) (childAvail spawnThrows : Bool) : World × Bool :=
  let _ := code
  let w1 := { w with engine := { w.engine with
    activeStreams := w.engine.activeStreams.filter (· ≠ streamKey) } }
  if w1.engine.loopEnabled then
    (playNextVideo w1 now childAvail spawnThrows, true)
  else
    let w2 := { w1 with engine := stopUptimeTrackingE w1.engine }
    let a : AdditionalData :=
      { viewerCount := some 0, uptime := some "00:00:00",
        loopPlaylist := some false, errorMessage := none }
    ({ w2 with row := updateStreamStatus w2.row "offline" none a now }, false)

/-- The `error` callback registered by `startStream` (lines 1167-1181) for
registry key `streamKey`: delete the registry entry, stop uptime tracking,
and attempt to reconcile the persisted status to `'error'` with the error
message attached — with no branch on the loop flag.  The attempt's UPDATE
carries the camelCase bag (including `errorMessage`, a column the table
does not have) and therefore never lands — see `updateStreamStatus`.  The
returned boolean is the same ghost observation as in `closeHandlerModel`
and is always `false`: the error path never invokes the playlist
advancer. -/
def errorHandlerModel (w : World) (streamKey : String) (errMsg : String)
    (now : Nat) : World × Bool :=
  let w1 := { w with engine := stopUptimeTrackingE { w.engine with
    activeStreams := w.engine.activeStreams.filter (· ≠ streamKey) } }
  let a : AdditionalData :=
    { viewerCount := some 0, uptime := some "00:00:00",
      loopPlaylist := some false, errorMessage := some errMsg }
  ({ w1 with row := updateStreamStatus w1.row "error" none a now }, false)

/-- The `close` callback registered by `streamToMultiplePlatforms`
(lines 1433-1436) for registry key `multistream_<videoId>`: it only
deletes the registry entry. -/
def msCloseHandler (w : World) (videoId : Nat) (code : Int) : World × Bool :=
  let _ := code
  let key := "multistream_" ++ toString videoId
  ({ w with engine := { w.engine with
      activeStreams := w.engine.activeStreams.filter (· ≠ key) } },
   false)

/-- The `error` callback registered by `streamToMultiplePlatforms`
(lines 1438-1441) for registry key `multistream_<videoId>`: it only
deletes the registry entry. -/
def msErrorHandler (w : World) (videoId : Nat) (errMsg : String) :
    World × Bool :=
  let _ := errMsg
  let key := "multistream_" ++ toString videoId
  ({ w with engine := { w.engine with
      activeStreams := w.engine.activeStreams.filter (· ≠ key) } },
   false)

/-- `k` consecutive playlist-advance handoffs (each a `playNextVideo`
triggered by a natural process end with loop enabled). -/
def advanceIter (w : World) (now : Nat) (childAvail spawnThrows : Bool) :
    Nat → World
  | 0 => w
  | k + 1 => playNextVideo (advanceIter w now childAvail spawnThrows k) now
      childAvail spawnThrows

/-! ## Helper lemmas: what `startStream` and `playNextVideo` leave alone -/

theorem startStreamModel_row (w : World) (vid : Nat) (cfg : StreamConfig)
    (now : Nat) (ca st : Bool) :
    (startStreamModel w vid cfg now ca st).1.row = w.row := by
  unfold startStreamModel
  split
  · rfl
  · dsimp only
    split
    · rfl
    · split
      · rfl
      · split
        · rfl
        · rfl

theorem startStreamModel_loopEnabled (w : World) (vid : Nat)
    (cfg : StreamConfig) (now : Nat) (ca st : Bool) :
    (startStreamModel w vid cfg now ca st).1.engine.loopEnabled =
      w.engine.loopEnabled := by
  unfold startStreamModel startUptimeTrackingE stopStreamE stopUptimeTrackingE
  split
  · rfl
  · dsimp only
    split
    · rfl
    · split
      · split <;> rfl
      · split
        · split <;> rfl
        · split <;> rfl

theorem startStreamModel_videosTable (w : World) (vid : Nat)
    (cfg : StreamConfig) (now : Nat) (ca st : Bool) :
    (startStreamModel w vid cfg now ca st).1.videosTable = w.videosTable := by
  unfold startStreamModel
  split
  · rfl
  · dsimp only
    split
    · rfl
    · split
      · rfl
      · split
        · rfl
        · rfl

theorem startStreamModel_activeConfig (w : World) (vid : Nat)
    (cfg : StreamConfig) (now : Nat) (ca st : Bool) :
    (startStreamModel w vid cfg now ca st).1.activeConfig = w.activeConfig := by
  unfold startStreamModel
  split
  · rfl
  · dsimp only
    split
    · rfl
    · split
      · rfl
      · split
        · rfl
        · rfl

theorem startStreamModel_playlist (w : World) (vid : Nat) (cfg : StreamConfig)
    (now : Nat) (ca st : Bool) :
    (startStreamModel w vid cfg now ca st).1.engine.playlist =
        w.engine.playlist ∨
      (startStreamModel w vid cfg now ca st).1.engine.playlist =
        w.videosTable := by
  unfold startStreamModel startUptimeTrackingE stopStreamE stopUptimeTrackingE
  split
  · left; rfl
  · dsimp only
    split
    · left; rfl
    · split
      · left; split <;> rfl
      · split
        · left; split <;> rfl
        · right; rfl

theorem playNextVideo_status (w : World) (now : Nat) (ca st : Bool) :
    (playNextVideo w now ca st).row.status = w.row.status := by
  unfold playNextVideo
  split
  · rfl
  · dsimp only
    split
    · rfl
    · split
      · rfl
      · rw [startStreamModel_row]

theorem playNextVideo_loop_playlist (w : World) (now : Nat) (ca st : Bool) :
    (playNextVideo w now ca st).row.loop_playlist = w.row.loop_playlist := by
  unfold playNextVideo
  split
  · rfl
  · dsimp only
    split
    · rfl
    · split
      · rfl
      · rw [startStreamModel_row]

theorem playNextVideo_loopEnabled (w : World) (now : Nat) (ca st : Bool) :
    (playNextVideo w now ca st).engine.loopEnabled = w.engine.loopEnabled := by
  unfold playNextVideo
  split
  · rfl
  · dsimp only
    split
    · rfl
    · split
      · rfl
      · rw [startStreamModel_loopEnabled]

theorem playNextVideo_videosTable (w : World) (now : Nat) (ca st : Bool) :
    (playNextVideo w now ca st).videosTable = w.videosTable := by
  unfold playNextVideo
  split
  · rfl
  · dsimp only
    split
    · rfl
    · split
      · rfl
      · rw [startStreamModel_videosTable]

theorem playNextVideo_activeConfig (w : World) (now : Nat) (ca st : Bool) :
    (playNextVideo w now ca st).activeConfig = w.activeConfig := by
  unfold playNextVideo
  split
  · rfl
  · dsimp only
    split
    · rfl
    · split
      · rfl
      · rw [startStreamModel_activeConfig]

theorem playNextVideo_playlist (w : World) (now : Nat) (ca st : Bool) :
    (playNextVideo w now ca st).engine.playlist = w.engine.playlist ∨
      (playNextVideo w now ca st).engine.playlist = w.videosTable := by
  unfold playNextVideo
  split
  · left; rfl
  · dsimp only
    split
    · left; rfl
    · split
      · left; rfl
      · exact startStreamModel_playlist _ _ _ _ _ _

/-- `Array.prototype.findIndex` over the playlist, looking for the row id
of the current item: it reports the item's index when the playlist ids are
duplicate-free. -/
theorem findIdx?_id_get (l : List Video) (hnd : (l.map Video.id).Nodup) :
    ∀ (off i : Nat) (hi : i < l.length),
      l.findIdx? (fun v => v.id = (l.get ⟨i, hi⟩).id) off = some (off + i) := by
  induction l with
  | nil => intro off i hi; simp at hi
  | cons x xs ih =>
    intro off i hi
    cases i with
    | zero => simp [List.findIdx?_cons]
    | succ j =>
      have hj : j < xs.length := by simpa using hi
      have hmem : ((x :: xs).get ⟨j + 1, hi⟩).id ∈ xs.map Video.id := by
        show (xs.get ⟨j, hj⟩).id ∈ xs.map Video.id
        exact List.mem_map_of_mem Video.id (xs.get_mem j hj)
      have hnd2 : (x.id :: List.map Video.id xs).Nodup := by
        rw [List.map_cons] at hnd; exact hnd
      have hx : ¬(x.id = ((x :: xs).get ⟨j + 1, hi⟩).id) := by
        intro hEq
        have hni := (List.nodup_cons.mp hnd2).1
        rw [hEq] at hni
        exact hni hmem
      rw [List.findIdx?_cons, if_neg (by simpa using hx)]
      have := ih (List.nodup_cons.mp hnd2).2 (off + 1) j hj
      rw [show ((x :: xs).get ⟨j + 1, hi⟩) = xs.get ⟨j, hj⟩ from rfl]
      rw [this]
      congr 1
      omega

/-- `findIndex` reports `-1` (here: `none`) when no playlist item carries
the searched id. -/
theorem findIdx?_id_none (l : List Video) (cid : Nat)
    (h : cid ∉ l.map Video.id) :
    ∀ off, l.findIdx? (fun v => v.id = cid) off = none := by
  induction l with
  | nil => intro off; rfl
  | cons x xs ih =>
    intro off
    have hx : ¬(x.id = cid) := by
      intro hEq
      exact h (by simp [← hEq])
    rw [List.findIdx?_cons, if_neg (by simpa using hx)]
    exact ih (fun hm => h (by simp [hm])) (off + 1)

theorem get_id_congr (l : List Video) (a b : Nat) (ha : a < l.length)
    (hb : b < l.length) (h : a = b) :
    (l.get ⟨a, ha⟩).id = (l.get ⟨b, hb⟩).id := by
  subst h; rfl

theorem get_id_inj (l : List Video) (hnd : (l.map Video.id).Nodup)
    (a b : Nat) (ha : a < l.length) (hb : b < l.length)
    (h : (l.get ⟨a, ha⟩).id = (l.get ⟨b, hb⟩).id) : a = b := by
  have ha' : a < (l.map Video.id).length := by simpa using ha
  have hb' : b < (l.map Video.id).length := by simpa using hb
  have hm : (l.map Video.id).get ⟨a, ha'⟩ = (l.map Video.id).get ⟨b, hb'⟩ := by
    rw [List.get_map, List.get_map]
    exact h
  have := (hnd.get_inj_iff).mp hm
  exact congrArg Fin.val this

theorem playNextVideo_current_step (l : List Video)
    (hnd : (l.map Video.id).Nodup) (hid0 : ∀ v ∈ l, v.id ≠ 0)
    (w : World) (now : Nat) (ca st : Bool)
    (hloop : w.engine.loopEnabled = true) (hpl : w.engine.playlist = l)
    (i : Nat) (hi : i < l.length)
    (hcur : w.row.current_video_id = some ((l.get ⟨i, hi⟩).id)) :
    (playNextVideo w now ca st).row.current_video_id =
      some ((l.get ⟨(i + 1) % l.length,
        Nat.mod_lt _ (Nat.lt_of_le_of_lt (Nat.zero_le i) hi)⟩).id) := by
  have hpos : 0 < l.length := Nat.lt_of_le_of_lt (Nat.zero_le i) hi
  have hne : l ≠ [] := by
    intro h; rw [h] at hpos; simp at hpos
  have hcid : ¬((l.get ⟨i, hi⟩).id = 0) := hid0 _ (l.get_mem i hi)
  have hfind := findIdx?_id_get l hnd 0 i hi
  rw [Nat.zero_add] at hfind
  have hguard : ¬(w.engine.loopEnabled = false ∨ w.engine.playlist = []) := by
    rw [hloop, hpl]; simp [hne]
  unfold playNextVideo
  rw [if_neg hguard]
  dsimp only
  rw [hcur, hpl]
  dsimp only
  rw [if_neg hcid, hfind]
  dsimp only
  have h2 : ((i + 1 : Nat) : Int) % ((l.length : Nat) : Int) =
      (((i + 1) % l.length : Nat) : Int) := by
    push_cast
    ring
  have hcast : (((i : Int) + 1) % ((l.length : Nat) : Int)).toNat =
      (i + 1) % l.length := by
    rw [show ((i : Int) + 1) = ((i + 1 : Nat) : Int) by push_cast; ring]
    rw [h2, Int.toNat_natCast]
  rw [hcast]
  rw [List.get?_eq_get (Nat.mod_lt _ hpos)]
  dsimp only
  split
  · rfl
  · rw [startStreamModel_row]

theorem advanceIter_spec (l : List Video)
    (hnd : (l.map Video.id).Nodup) (hid0 : ∀ v ∈ l, v.id ≠ 0)
    (w : World) (now : Nat) (ca st : Bool)
    (hloop : w.engine.loopEnabled = true) (hpl : w.engine.playlist = l)
    (hvt : w.videosTable = l) (i : Nat) (hi : i < l.length)
    (hcur : w.row.current_video_id = some ((l.get ⟨i, hi⟩).id)) :
    ∀ k : Nat,
      (advanceIter w now ca st k).engine.loopEnabled = true ∧
      (advanceIter w now ca st k).engine.playlist = l ∧
      (advanceIter w now ca st k).videosTable = l ∧
      (advanceIter w now ca st k).row.current_video_id =
        some ((l.get ⟨(i + k) % l.length,
          Nat.mod_lt _ (Nat.lt_of_le_of_lt (Nat.zero_le i) hi)⟩).id) := by
  have hpos : 0 < l.length := Nat.lt_of_le_of_lt (Nat.zero_le i) hi
  intro k
  induction k with
  | zero =>
    refine ⟨hloop, hpl, hvt, ?_⟩
    rw [show advanceIter w now ca st 0 = w from rfl, hcur]
    have hidx : i = (i + 0) % l.length := by
      rw [Nat.add_zero, Nat.mod_eq_of_lt hi]
    exact congrArg some
      (get_id_congr l i ((i + 0) % l.length) hi (Nat.mod_lt _ hpos) hidx)
  | succ k ih =>
    obtain ⟨ihl, ihp, ihv, ihc⟩ := ih
    have hstep := playNextVideo_current_step l hnd hid0
      (advanceIter w now ca st k) now ca st ihl ihp
      ((i + k) % l.length) (Nat.mod_lt _ hpos) ihc
    have hpl' := playNextVideo_playlist (advanceIter w now ca st k) now ca st
    refine ⟨?_, ?_, ?_, ?_⟩
    · rw [show advanceIter w now ca st (k + 1) =
        playNextVideo (advanceIter w now ca st k) now ca st from rfl]
      rw [playNextVideo_loopEnabled]
      exact ihl
    · rcases hpl' with h | h
      · rw [show advanceIter w now ca st (k + 1) =
          playNextVideo (advanceIter w now ca st k) now ca st from rfl, h, ihp]
      · rw [show advanceIter w now ca st (k + 1) =
          playNextVideo (advanceIter w now ca st k) now ca st from rfl, h, ihv]
    · rw [show advanceIter w now ca st (k + 1) =
        playNextVideo (advanceIter w now ca st k) now ca st from rfl]
      rw [playNextVideo_videosTable]
      exact ihv
    · rw [show advanceIter w now ca st (k + 1) =
        playNextVideo (advanceIter w now ca st k) now ca st from rfl]
      rw [hstep]
      refine congrArg some (get_id_congr l _ _ _ _ ?_)
      rw [Nat.mod_add_mod, Nat.add_assoc]

theorem mod_shift_cancel (len i k k' : Nat) (hk1 : 1 ≤ k) (hk2 : k ≤ len)
    (hk1' : 1 ≤ k') (hk2' : k' ≤ len)
    (h : (i + k) % len = (i + k') % len) : k = k' := by
  rcases Nat.le_total k k' with hle | hle
  · have hdvd : len ∣ (i + k') - (i + k) :=
      (Nat.modEq_iff_dvd' (by omega)).mp h
    have : (i + k') - (i + k) = k' - k := by omega
    rw [this] at hdvd
    have := Nat.eq_zero_of_dvd_of_lt hdvd
    omega
  · have hdvd : len ∣ (i + k) - (i + k') :=
      (Nat.modEq_iff_dvd' (by omega)).mp h.symm
    have : (i + k) - (i + k') = k - k' := by omega
    rw [this] at hdvd
    have := Nat.eq_zero_of_dvd_of_lt hdvd
    omega

theorem playNextVideo_empty (w : World) (now : Nat) (ca st : Bool)
    (h : w.engine.playlist = []) : playNextVideo w now ca st = w := by
  unfold playNextVideo
  rw [if_pos (Or.inr h)]

theorem playNextVideo_absent (l : List Video) (w : World) (now : Nat)
    (ca st : Bool) (hloop : w.engine.loopEnabled = true)
    (hpl : w.engine.playlist = l) (hne : l ≠ []) (cid : Nat)
    (hcur : w.row.current_video_id = some cid) (hcid0 : ¬(cid = 0))
    (habs : cid ∉ l.map Video.id) :
    (playNextVideo w now ca st).row.current_video_id =
      some ((l.get ⟨0, List.length_pos.mpr hne⟩).id) := by
  have hpos : 0 < l.length := List.length_pos.mpr hne
  have hfind := findIdx?_id_none l cid habs 0
  have hguard : ¬(w.engine.loopEnabled = false ∨ w.engine.playlist = []) := by
    rw [hloop, hpl]; simp [hne]
  unfold playNextVideo
  rw [if_neg hguard]
  dsimp only
  rw [hcur, hpl]
  dsimp only
  rw [if_neg hcid0, hfind]
  dsimp only
  have hcast : (((-1 : Int) + 1) % ((l.length : Nat) : Int)).toNat = 0 := by
    norm_num
  rw [hcast]
  rw [List.get?_eq_get hpos]
  dsimp only
  split
  · rfl
  · rw [startStreamModel_row]

theorem playNextVideo_noConfig (w : World) (now : Nat) (ca st : Bool)
    (hac : w.activeConfig = none) :
    (playNextVideo w now ca st).engine.activeStreams =
        w.engine.activeStreams ∧
      (playNextVideo w now ca st).engine.streamConfigs =
        w.engine.streamConfigs ∧
      (playNextVideo w now ca st).engine.streamStartTime =
        w.engine.streamStartTime ∧
      (playNextVideo w now ca st).engine.uptimeIntervalActive =
        w.engine.uptimeIntervalActive := by
  unfold playNextVideo
  split
  · exact ⟨rfl, rfl, rfl, rfl⟩
  · dsimp only
    split
    · exact ⟨rfl, rfl, rfl, rfl⟩
    · rw [hac]
      exact ⟨rfl, rfl, rfl, rfl⟩

/-! ## Example fixtures used by witnesses and counterexamples -/

def exVideo (i : Nat) : Video :=
  { id := i, title := "video " ++ toString i,
    filename := "f" ++ toString i ++ ".mp4" }

def exPlaylist : List Video := [exVideo 1, exVideo 2, exVideo 3]

def exLiveRow : StreamStatusRow :=
  { status := "live"
    viewer_count := 12
    uptime := "00:00:05"
    current_video_id := some 2
    started_at := some 0
    loop_playlist := true }

def exDbConfig : DbStreamConfig :=
  { platform := some "youtube"
    stream_key := "abc"
    rtmp_url := none
    resolution := some "720p"
    framerate := some 30
    bitrate := some 2500 }

def exWorld : World :=
  { engine := { newEngineState with
      loopEnabled := true
      playlist := exPlaylist
      activeStreams := ["video_2"]
      streamStartTime := some 0
      uptimeIntervalActive := true }
    row := exLiveRow
    videosTable := exPlaylist
    activeConfig := some exDbConfig
    uploadsOnDisk := ["f1.mp4", "f2.mp4", "f3.mp4"] }

def exWorldNoLoop : World :=
  { exWorld with engine := { exWorld.engine with loopEnabled := false } }

/-! ## Claim theorems -/

/-- C1 (code evaluation at the claim's failing input): when the
transcoder process for a session exits, the `close` handler does branch
on the loop flag as it is at the moment of exit (the handler reads the
world as it stands when the event fires, and the exit `code` is
quantified over and never examined): enabled hands off to the playlist
advancer (ghost flag `true`) without touching the persisted status;
disabled removes the session's registry entry and stops uptime tracking
(interval cleared, start time nulled).  But the claimed `'offline'`
write never lands: the status-update bag carries the camelCase keys
`viewerCount`/`loopPlaylist`, which are not columns of `stream_status`,
so the UPDATE throws, is swallowed, and the persisted row is returned
exactly unchanged — it is never set to offline/null-item/0-viewers/
`'00:00:00'`. -/
theorem spec_C1_close_handler_offline_write_fails (w : World)
    (streamKey : String) (code : Int) (now : Nat) (ca st : Bool) :
    (w.engine.loopEnabled = true →
      (closeHandlerModel w streamKey code now ca st).2 = true ∧
      (closeHandlerModel w streamKey code now ca st).1.row.status =
        w.row.status) ∧
    (w.engine.loopEnabled = false →
      (closeHandlerModel w streamKey code now ca st).2 = false ∧
      streamKey ∉
        (closeHandlerModel w streamKey code now ca st).1.engine.activeStreams ∧
      (closeHandlerModel w streamKey code now ca st).1.engine.uptimeIntervalActive
        = false ∧
      (closeHandlerModel w streamKey code now ca st).1.engine.streamStartTime
        = none ∧
      (closeHandlerModel w streamKey code now ca st).1.row = w.row) := by
  constructor
  · intro hl
    unfold closeHandlerModel
    dsimp only
    rw [hl, if_pos rfl]
    refine ⟨rfl, ?_⟩
    rw [playNextVideo_status]
  · intro hl
    unfold closeHandlerModel
    dsimp only
    rw [hl, if_neg (by simp)]
    refine ⟨rfl, ?_, rfl, rfl, rfl⟩
    simp [stopUptimeTrackingE, List.mem_filter]

/-- Witness for C1 at a concrete world whose row is `'live'` and whose
loop flag is disabled: the exit handler leaves the row untouched (still
`'live'`) instead of writing it offline. -/
theorem spec_C1_witness :
    (exWorldNoLoop.engine.loopEnabled = false ∧
      exWorldNoLoop.row.status = "live") ∧
    ((closeHandlerModel exWorldNoLoop "video_2" 0 5 true false).2 = false ∧
      "video_2" ∉
        (closeHandlerModel exWorldNoLoop "video_2" 0 5 true false).1.engine.activeStreams ∧
      (closeHandlerModel exWorldNoLoop "video_2" 0 5 true false).1.engine.uptimeIntervalActive
        = false ∧
      (closeHandlerModel exWorldNoLoop "video_2" 0 5 true false).1.engine.streamStartTime
        = none ∧
      (closeHandlerModel exWorldNoLoop "video_2" 0 5 true false).1.row =
        exWorldNoLoop.row) :=
  ⟨⟨rfl, rfl⟩,
    (spec_C1_close_handler_offline_write_fails exWorldNoLoop "video_2" 0 5
      true false).2 rfl⟩

/-- C2: with loop enabled and a non-empty playlist snapshot of `N` items
whose ids are duplicate-free and non-zero, (1) each playlist-advance
handoff moves the persisted current-item reference from the item at index
`i` to the item at index `(i+1) % N`, so after `k` handoffs it points at
index `(i+k) % N`; `N` consecutive handoffs return it to the starting
item, and every item is visited exactly once by the handoffs `1..N`;
(2) if the current item is absent from the snapshot the next item is the
one at index 0; (3) if the snapshot is empty the advance does nothing at
all; (4) if no active profile exists the advanced current item is still
persisted but no session is started (registry, config map and
uptime-tracking state untouched). -/
theorem spec_C2_playlist_advance_cycle :
    (∀ (w : World) (l : List Video) (now : Nat) (ca st : Bool) (i : Nat)
      (hi : i < l.length),
      (l.map Video.id).Nodup → (∀ v ∈ l, v.id ≠ 0) →
      w.engine.loopEnabled = true → w.engine.playlist = l →
      w.videosTable = l →
      w.row.current_video_id = some ((l.get ⟨i, hi⟩).id) →
      (∀ k : Nat,
        (advanceIter w now ca st k).row.current_video_id =
          some ((l.get ⟨(i + k) % l.length,
            Nat.mod_lt _ (Nat.lt_of_le_of_lt (Nat.zero_le i) hi)⟩).id)) ∧
      (advanceIter w now ca st l.length).row.current_video_id =
        w.row.current_video_id ∧
      (∀ (j : Nat) (hj : j < l.length),
        ∃! k : Nat, (1 ≤ k ∧ k ≤ l.length) ∧
          (advanceIter w now ca st k).row.current_video_id =
            some ((l.get ⟨j, hj⟩).id))) ∧
    (∀ (w : World) (l : List Video) (now : Nat) (ca st : Bool) (cid : Nat)
      (hne : l ≠ []),
      w.engine.loopEnabled = true → w.engine.playlist = l →
      w.row.current_video_id = some cid → ¬(cid = 0) →
      cid ∉ l.map Video.id →
      (playNextVideo w now ca st).row.current_video_id =
        some ((l.get ⟨0, List.length_pos.mpr hne⟩).id)) ∧
    (∀ (w : World) (now : Nat) (ca st : Bool),
      w.engine.playlist = [] → playNextVideo w now ca st = w) ∧
    (∀ (w : World) (l : List Video) (now : Nat) (ca st : Bool) (i : Nat)
      (hi : i < l.length),
      (l.map Video.id).Nodup → (∀ v ∈ l, v.id ≠ 0) →
      w.engine.loopEnabled = true → w.engine.playlist = l →
      w.row.current_video_id = some ((l.get ⟨i, hi⟩).id) →
      w.activeConfig = none →
      (playNextVideo w now ca st).row.current_video_id =
        some ((l.get ⟨(i + 1) % l.length,
          Nat.mod_lt _ (Nat.lt_of_le_of_lt (Nat.zero_le i) hi)⟩).id) ∧
      (playNextVideo w now ca st).engine.activeStreams =
        w.engine.activeStreams ∧
      (playNextVideo w now ca st).engine.streamConfigs =
        w.engine.streamConfigs ∧
      (playNextVideo w now ca st).engine.streamStartTime =
        w.engine.streamStartTime ∧
      (playNextVideo w now ca st).engine.uptimeIntervalActive =
        w.engine.uptimeIntervalActive) := by
  refine ⟨?_, ?_, ?_, ?_⟩
  · intro w l now ca st i hi hnd hid0 hloop hpl hvt hcur
    have hpos : 0 < l.length := Nat.lt_of_le_of_lt (Nat.zero_le i) hi
    have hspec := advanceIter_spec l hnd hid0 w now ca st hloop hpl hvt i hi hcur
    refine ⟨fun k => (hspec k).2.2.2, ?_, ?_⟩
    · rw [(hspec l.length).2.2.2, hcur]
      refine congrArg some (get_id_congr l _ _ _ _ ?_)
      rw [Nat.add_mod_right, Nat.mod_eq_of_lt hi]
    · intro j hj
      refine ⟨(j + l.length - (i + 1)) % l.length + 1, ⟨⟨?_, ?_⟩, ?_⟩, ?_⟩
      · omega
      · have := Nat.mod_lt (j + l.length - (i + 1)) hpos
        omega
      · rw [(hspec _).2.2.2]
        refine congrArg some (get_id_congr l _ _ _ _ ?_)
        have h1 : i + ((j + l.length - (i + 1)) % l.length + 1) =
            (i + 1) + (j + l.length - (i + 1)) % l.length := by omega
        rw [h1, Nat.add_mod_mod,
          show (i + 1) + (j + l.length - (i + 1)) = j + l.length by omega,
          Nat.add_mod_right, Nat.mod_eq_of_lt hj]
      · intro k' ⟨⟨hk1, hk2⟩, hk⟩
        rw [(hspec k').2.2.2] at hk
        have hidx := get_id_inj l hnd _ _ (Nat.mod_lt _ hpos) hj
          (Option.some_injective _ hk)
        have hidx0 : (i + ((j + l.length - (i + 1)) % l.length + 1)) %
            l.length = j := by
          have h1 : i + ((j + l.length - (i + 1)) % l.length + 1) =
              (i + 1) + (j + l.length - (i + 1)) % l.length := by omega
          rw [h1, Nat.add_mod_mod,
            show (i + 1) + (j + l.length - (i + 1)) = j + l.length by omega,
            Nat.add_mod_right, Nat.mod_eq_of_lt hj]
        refine mod_shift_cancel l.length i k' _ hk1 hk2 ?_ ?_ ?_
        · omega
        · have := Nat.mod_lt (j + l.length - (i + 1)) hpos
          omega
        · rw [hidx, hidx0]
  · intro w l now ca st cid hne hloop hpl hcur hcid0 habs
    exact playNextVideo_absent l w now ca st hloop hpl hne cid hcur hcid0 habs
  · intro w now ca st h
    exact playNextVideo_empty w now ca st h
  · intro w l now ca st i hi hnd hid0 hloop hpl hcur hac
    have hstep := playNextVideo_current_step l hnd hid0 w now ca st hloop hpl
      i hi hcur
    have hnc := playNextVideo_noConfig w now ca st hac
    exact ⟨hstep, hnc.1, hnc.2.1, hnc.2.2.1, hnc.2.2.2⟩

/-- Witness for C2 at a three-item playlist: three consecutive advances
return the persisted current item to where it started. -/
theorem spec_C2_witness :
    ((1 : Nat) < exPlaylist.length ∧ (exPlaylist.map Video.id).Nodup) ∧
    (advanceIter exWorld 5 true false exPlaylist.length).row.current_video_id
      = exWorld.row.current_video_id :=
  ⟨⟨by decide, by decide⟩,
    ((spec_C2_playlist_advance_cycle.1 exWorld exPlaylist 5 true false 1
      (by decide) (by decide) (by decide) rfl rfl rfl rfl).2.1)⟩

/-- C3: the engine's loop flag starts disabled at construction and
changes only via explicit `setLoopEnabled` calls: `startStream`,
`stopStream`, the process exit handler and the process error handler all
leave the in-memory flag unchanged.  The persisted `loop_playlist` field
is also left unchanged by exit and error handling: the advancer path
only writes `current_video_id`, and the offline/error status updates
carry the camelCase bag whose UPDATE always fails, so they write
nothing. -/
theorem spec_C3_loop_flag_lifecycle :
    newEngineState.loopEnabled = false ∧
    (∀ (s : EngineState) (b : Bool), (setLoopEnabledE s b).loopEnabled = b) ∧
    (∀ (w : World) (k : String) (code : Int) (now : Nat) (ca st : Bool),
      (closeHandlerModel w k code now ca st).1.engine.loopEnabled =
        w.engine.loopEnabled) ∧
    (∀ (w : World) (k m : String) (now : Nat),
      (errorHandlerModel w k m now).1.engine.loopEnabled =
        w.engine.loopEnabled) ∧
    (∀ (w : World) (vid : Nat) (cfg : StreamConfig) (now : Nat) (ca st : Bool),
      (startStreamModel w vid cfg now ca st).1.engine.loopEnabled =
        w.engine.loopEnabled) ∧
    (∀ (s : EngineState) (k : Option String),
      (stopStreamE s k).1.loopEnabled = s.loopEnabled) ∧
    (∀ (w : World) (k : String) (code : Int) (now : Nat) (ca st : Bool),
      (closeHandlerModel w k code now ca st).1.row.loop_playlist =
        w.row.loop_playlist) ∧
    (∀ (w : World) (k m : String) (now : Nat),
      (errorHandlerModel w k m now).1.row.loop_playlist =
        w.row.loop_playlist) := by
  refine ⟨rfl, fun s b => rfl, ?_, ?_, ?_, ?_, ?_, ?_⟩
  · intro w k code now ca st
    unfold closeHandlerModel
    dsimp only
    split
    · rw [playNextVideo_loopEnabled]
    · simp [stopUptimeTrackingE]
  · intro w k m now
    simp [errorHandlerModel, stopUptimeTrackingE]
  · intro w vid cfg now ca st
    exact startStreamModel_loopEnabled w vid cfg now ca st
  · intro s k
    cases k <;> simp [stopStreamE, stopUptimeTrackingE]
  · intro w k code now ca st
    unfold closeHandlerModel
    dsimp only
    split
    · rw [playNextVideo_loop_playlist]
    · rfl
  · intro w k m now
    rfl

/-- C4: when the media item is missing from the store, or its file is
missing from the uploads directory, `startStream` returns `false` and the
whole world — registry, stream-config map, uptime-tracking state and all
— is exactly as before the call; a synchronous process-launch failure
(`spawnThrows`) is also reported as `false` rather than thrown. -/
theorem spec_C4_start_failure_no_session :
    (∀ (w : World) (vid : Nat) (cfg : StreamConfig) (now : Nat) (ca st : Bool),
      w.videosTable.find? (fun v => v.id = vid) = none →
      startStreamModel w vid cfg now ca st = (w, false)) ∧
    (∀ (w : World) (vid : Nat) (cfg : StreamConfig) (now : Nat) (ca st : Bool)
      (video : Video),
      w.videosTable.find? (fun v => v.id = vid) = some video →
      video.filename ∉ w.uploadsOnDisk →
      startStreamModel w vid cfg now ca st = (w, false)) ∧
    (∀ (w : World) (vid : Nat) (cfg : StreamConfig) (now : Nat),
      (startStreamModel w vid cfg now true true).2 = false) := by
  refine ⟨?_, ?_, ?_⟩
  · intro w vid cfg now ca st h
    unfold startStreamModel
    rw [h]
  · intro w vid cfg now ca st video h1 h2
    unfold startStreamModel
    rw [h1]
    dsimp only
    rw [if_pos h2]
  · intro w vid cfg now
    unfold startStreamModel
    split
    · rfl
    · dsimp only
      split
      · rfl
      · rw [if_neg (by simp), if_pos rfl]

/-- Witness for C4 at a media item absent from the store. -/
theorem spec_C4_witness :
    exWorld.videosTable.find? (fun v => v.id = 99) = none ∧
    startStreamModel exWorld 99 (dbConfigToStreamConfig exDbConfig) 5 true
      false = (exWorld, false) :=
  ⟨by decide,
    spec_C4_start_failure_no_session.1 exWorld 99
      (dbConfigToStreamConfig exDbConfig) 5 true false (by decide)⟩

/-- C5 (code evaluation at the claim's failing input): on a process
error event the handler removes the session's registry entry, stops
uptime tracking, and never invokes the playlist advancer (ghost flag
`false`), all irrespective of the loop flag (the resulting row is proven
identical for both flag values).  But the claimed `'error'` write never
lands: the update bag carries the camelCase keys `viewerCount`,
`loopPlaylist` and `errorMessage` — none of them columns of
`stream_status`, which has no error-message column at all — so the
UPDATE throws, is swallowed, and the persisted row is returned exactly
unchanged. -/
theorem spec_C5_error_handler_write_fails (w : World) (k m : String)
    (now : Nat) :
    (errorHandlerModel w k m now).2 = false ∧
    k ∉ (errorHandlerModel w k m now).1.engine.activeStreams ∧
    (errorHandlerModel w k m now).1.engine.uptimeIntervalActive = false ∧
    (errorHandlerModel w k m now).1.engine.streamStartTime = none ∧
    (errorHandlerModel w k m now).1.row = w.row ∧
    (∀ b : Bool,
      (errorHandlerModel
          { w with engine := { w.engine with loopEnabled := b } } k m
          now).1.row =
        (errorHandlerModel w k m now).1.row) := by
  refine ⟨rfl, ?_, rfl, rfl, rfl, fun b => rfl⟩
  simp [errorHandlerModel, stopUptimeTrackingE, List.mem_filter]

/-- Counterexample to C6: for a platform outside the table the code does
*not* always fall back to the YouTube endpoint — when the profile carries
a custom URL, the default branch returns that custom URL
(`customUrl || youtube`). -/
theorem spec_C6_counterexample :
    getPlatformRTMPUrl (some "vimeo") (some "rtmp://example.com/live") =
      "rtmp://example.com/live" ∧
    "rtmp://example.com/live" ≠ "rtmp://a.rtmp.youtube.com/live2" :=
  ⟨by decide, by decide⟩

/-- C6 (amended): the destination URL is resolved from the
case-insensitive platform identifier by the fixed table — `youtube`,
`twitch`, `facebook` map to their endpoints; `custom` maps to the
profile's custom URL (falling back to a localhost endpoint when the
custom URL is null or empty); any other value — and a missing platform —
maps to the profile's custom URL when one is set and to the YouTube
endpoint otherwise.  The final destination composes the resolved URL with
the secret stream key as `<url>/<key>`. -/
theorem spec_C6_destination_resolution (cfg : StreamConfig) :
    (cfg.platform.map jsToLower = some "youtube" →
      fullRtmpUrl cfg = "rtmp://a.rtmp.youtube.com/live2" ++ "/" ++ cfg.streamKey) ∧
    (cfg.platform.map jsToLower = some "twitch" →
      fullRtmpUrl cfg = "rtmp://live.twitch.tv/app" ++ "/" ++ cfg.streamKey) ∧
    (cfg.platform.map jsToLower = some "facebook" →
      fullRtmpUrl cfg =
        "rtmps://live-api-s.facebook.com:443/rtmp" ++ "/" ++ cfg.streamKey) ∧
    (cfg.platform.map jsToLower = some "custom" →
      fullRtmpUrl cfg =
        jsOrStr cfg.rtmpUrl "rtmp://localhost:1935/live" ++ "/" ++
          cfg.streamKey) ∧
    (∀ s : String, cfg.platform = some s →
      jsToLower s ∉ (["youtube", "twitch", "facebook", "custom"] :
        List String) →
      fullRtmpUrl cfg =
        jsOrStr cfg.rtmpUrl "rtmp://a.rtmp.youtube.com/live2" ++ "/" ++
          cfg.streamKey) ∧
    (cfg.platform = none →
      fullRtmpUrl cfg =
        jsOrStr cfg.rtmpUrl "rtmp://a.rtmp.youtube.com/live2" ++ "/" ++
          cfg.streamKey) := by
  refine ⟨?_, ?_, ?_, ?_, ?_, ?_⟩
  · intro h
    rcases hp : cfg.platform with _ | s
    · rw [hp] at h; simp at h
    · rw [hp] at h
      simp only [Option.map_some'] at h
      replace h := Option.some_injective _ h
      unfold fullRtmpUrl getPlatformRTMPUrl
      rw [hp]
      dsimp only
      rw [h, if_pos rfl]
  · intro h
    rcases hp : cfg.platform with _ | s
    · rw [hp] at h; simp at h
    · rw [hp] at h
      simp only [Option.map_some'] at h
      replace h := Option.some_injective _ h
      unfold fullRtmpUrl getPlatformRTMPUrl
      rw [hp]
      dsimp only
      rw [h, if_neg (by decide), if_pos rfl]
  · intro h
    rcases hp : cfg.platform with _ | s
    · rw [hp] at h; simp at h
    · rw [hp] at h
      simp only [Option.map_some'] at h
      replace h := Option.some_injective _ h
      unfold fullRtmpUrl getPlatformRTMPUrl
      rw [hp]
      dsimp only
      rw [h, if_neg (by decide), if_neg (by decide), if_pos rfl]
  · intro h
    rcases hp : cfg.platform with _ | s
    · rw [hp] at h; simp at h
    · rw [hp] at h
      simp only [Option.map_some'] at h
      replace h := Option.some_injective _ h
      unfold fullRtmpUrl getPlatformRTMPUrl
      rw [hp]
      dsimp only
      rw [h, if_neg (by decide), if_neg (by decide), if_neg (by decide),
        if_pos rfl]
  · intro s hp hmem
    simp only [List.mem_cons, List.not_mem_nil, or_false, not_or] at hmem
    obtain ⟨h1, h2, h3, h4⟩ := hmem
    unfold fullRtmpUrl getPlatformRTMPUrl
    rw [hp]
    dsimp only
    rw [if_neg h1, if_neg h2, if_neg h3, if_neg h4]
  · intro hp
    unfold fullRtmpUrl getPlatformRTMPUrl
    rw [hp]
    dsimp only
    rw [if_neg (by decide), if_neg (by decide), if_neg (by decide),
      if_neg (by decide)]

/-- Witness for C6 (amended) at the `twitch` row of the table. -/
theorem spec_C6_witness :
    (dbConfigToStreamConfig
        { exDbConfig with platform := some "Twitch" }).platform.map jsToLower
      = some "twitch" ∧
    fullRtmpUrl (dbConfigToStreamConfig
        { exDbConfig with platform := some "Twitch" }) =
      "rtmp://live.twitch.tv/app" ++ "/" ++
        (dbConfigToStreamConfig
          { exDbConfig with platform := some "Twitch" }).streamKey :=
  ⟨by decide,
    (spec_C6_destination_resolution (dbConfigToStreamConfig
      { exDbConfig with platform := some "Twitch" })).2.1 (by decide)⟩

/-- A decimal digit character produced by `Nat.digitChar` below base 10. -/
theorem digitChar_isDigit (m : Nat) (hm : m < 10) :
    (Nat.digitChar m).isDigit = true := by
  interval_cases m <;> decide

/-- Every character `Nat.toDigitsCore` emits over base 10 is a decimal
digit (or came from the accumulator). -/
theorem toDigitsCore_mem (f : Nat) :
    ∀ (n : Nat) (acc : List Char) (c : Char),
      c ∈ Nat.toDigitsCore 10 f n acc → c ∈ acc ∨ c.isDigit = true := by
  induction f with
  | zero => intro n acc c hc; exact Or.inl hc
  | succ f ih =>
    intro n acc c hc
    unfold Nat.toDigitsCore at hc
    by_cases hnb : n / 10 = 0
    · rw [if_pos hnb] at hc
      rcases List.mem_cons.mp hc with h | h
      · exact Or.inr (h ▸ digitChar_isDigit _ (Nat.mod_lt _ (by norm_num)))
      · exact Or.inl h
    · rw [if_neg hnb] at hc
      rcases ih (n / 10) (Nat.digitChar (n % 10) :: acc) c hc with h | h
      · rcases List.mem_cons.mp h with h2 | h2
        · exact Or.inr (h2 ▸ digitChar_isDigit _ (Nat.mod_lt _ (by norm_num)))
        · exact Or.inl h2
      · exact Or.inr h

/-- The decimal rendering of a number is never the flag string `"-vf"`. -/
theorem natToString_ne_vf (n : Nat) : toString n ≠ "-vf" := by
  intro h
  have hdata : (Nat.repr n).data = ['-', 'v', 'f'] := congrArg String.data h
  have hmem : '-' ∈ (Nat.repr n).data := by rw [hdata]; simp
  have hmem2 : '-' ∈ Nat.toDigitsCore 10 (n + 1) n [] := hmem
  rcases toDigitsCore_mem (n + 1) n [] '-' hmem2 with h1 | h1
  · simp at h1
  · exact absurd h1 (by decide)

/-- A bitrate argument (`<number>k`) is never the flag string `"-vf"`. -/
theorem append_k_ne_vf (s : String) : s ++ "k" ≠ "-vf" := by
  intro h
  have h1 : s.data ++ ['k'] = ['-', 'v', 'f'] := by
    have := congrArg String.data h
    rwa [String.data_append] at this
  have h2 := congrArg List.getLast? h1
  rw [List.getLast?_concat] at h2
  simp at h2

def exConfigNoRes : StreamConfig :=
  { platform := none
    streamKey := "k"
    rtmpUrl := none
    resolution := none
    framerate := none
    bitrate := none }

/-- Counterexample to C7: with no resolution configured the scale filter
is *not* applied, although "no resolution" is not the string
`'original'` — the guard is JS truthiness (`config.resolution && ...`),
not only the `!== 'original'` comparison. -/
theorem spec_C7_counterexample :
    "-vf" ∉ buildFFmpegArgs "in.mp4" "rtmp://x/y" exConfigNoRes ∧
    exConfigNoRes.resolution ≠ some "original" :=
  ⟨by decide, by decide⟩

/-- C7 (amended): the scale-height table maps
`1920x1080`/`1080p` to 1080, `1280x720`/`720p` to 720, `854x480`/`480p`
to 480, `640x360`/`360p` to 360, and everything else to 720; and the
scale filter (`-vf`) appears in the transcoder arguments exactly when a
resolution is present (non-null, non-empty) and differs from
`'original'`. -/
theorem spec_C7_resolution_table_and_scale :
    (getResolutionHeight "1920x1080" = 1080 ∧
      getResolutionHeight "1080p" = 1080 ∧
      getResolutionHeight "1280x720" = 720 ∧
      getResolutionHeight "720p" = 720 ∧
      getResolutionHeight "854x480" = 480 ∧
      getResolutionHeight "480p" = 480 ∧
      getResolutionHeight "640x360" = 360 ∧
      getResolutionHeight "360p" = 360) ∧
    (∀ r : String,
      r ∉ (["1920x1080", "1080p", "1280x720", "720p", "854x480", "480p",
        "640x360", "360p"] : List String) →
      getResolutionHeight r = 720) ∧
    (∀ (pin pout : String) (cfg : StreamConfig),
      pin ≠ "-vf" → pout ≠ "-vf" →
      ("-vf" ∈ buildFFmpegArgs pin pout cfg ↔
        ∃ r, cfg.resolution = some r ∧ r ≠ "" ∧ r ≠ "original")) := by
  refine ⟨⟨rfl, rfl, rfl, rfl, rfl, rfl, rfl, rfl⟩, ?_, ?_⟩
  · intro r hr
    simp only [List.mem_cons, List.not_mem_nil, or_false, not_or] at hr
    obtain ⟨h1, h2, h3, h4, h5, h6, h7, h8⟩ := hr
    unfold getResolutionHeight
    rw [if_neg (by tauto), if_neg (by tauto), if_neg (by tauto),
      if_neg (by tauto)]
  · intro pin pout cfg hpin hpout
    have hk1 := append_k_ne_vf (toString (jsOrNat cfg.bitrate 2500))
    have hk2 := append_k_ne_vf (toString (jsOrNat cfg.bitrate 2500 * 2))
    have hn1 := natToString_ne_vf (jsOrNat cfg.framerate 30)
    have hn2 := natToString_ne_vf (jsOrNat cfg.framerate 30 * 2)
    unfold buildFFmpegArgs
    dsimp only
    rcases cfg.resolution with _ | r
    · dsimp only
      constructor
      · intro hmem
        exfalso
        simp [Ne.symm hpin, Ne.symm hpout, Ne.symm hk1, Ne.symm hk2,
          Ne.symm hn1, Ne.symm hn2] at hmem
      · rintro ⟨r, hr, -, -⟩
        exact Option.noConfusion hr
    · dsimp only
      by_cases hcond : r ≠ "" ∧ r ≠ "original"
      · rw [if_pos hcond]
        constructor
        · intro _
          exact ⟨r, rfl, hcond.1, hcond.2⟩
        · intro _
          simp
      · rw [if_neg hcond]
        constructor
        · intro hmem
          exfalso
          simp [Ne.symm hpin, Ne.symm hpout, Ne.symm hk1, Ne.symm hk2,
            Ne.symm hn1, Ne.symm hn2] at hmem
        · rintro ⟨r2, hr2, hne1, hne2⟩
          obtain rfl : r = r2 := Option.some_injective _ hr2
          exact absurd ⟨hne1, hne2⟩ hcond

/-- Witness for C7 at an off-table resolution string and at a profile
that requests 480p scaling. -/
theorem spec_C7_witness :
    ("4k" ∉ (["1920x1080", "1080p", "1280x720", "720p", "854x480", "480p",
      "640x360", "360p"] : List String) ∧ getResolutionHeight "4k" = 720) ∧
    ("in.mp4" ≠ "-vf" ∧
      ("-vf" ∈ buildFFmpegArgs "in.mp4" "rtmp://x/y"
          { exConfigNoRes with resolution := some "480p" } ↔
        ∃ r, ({ exConfigNoRes with resolution := some "480p" }
            : StreamConfig).resolution = some r ∧ r ≠ "" ∧ r ≠ "original")) :=
  ⟨⟨by decide, spec_C7_resolution_table_and_scale.2.1 "4k" (by decide)⟩,
    ⟨by decide,
      spec_C7_resolution_table_and_scale.2.2 "in.mp4" "rtmp://x/y"
        { exConfigNoRes with resolution := some "480p" } (by decide)
        (by decide)⟩⟩

def exIdleTracking : EngineState :=
  { newEngineState with streamStartTime := some 5, uptimeIntervalActive := true }

/-- Counterexample to C8: `stopAllStreams()` on an empty registry is not
always a no-op — `stopStream` unconditionally calls
`stopUptimeTracking()`, so a state with an empty registry but a recorded
start time (as happens between a looped exit and the next relaunch) is
changed by the call. -/
theorem spec_C8_counterexample :
    exIdleTracking.activeStreams = [] ∧
    (stopAllStreamsE exIdleTracking).1 ≠ exIdleTracking :=
  ⟨rfl, by decide⟩

/-- C8 (amended): `stopStream` and `stopAllStreams` always report
success and are idempotent (stopping an unknown or already-stopped
session included); `stopAllStreams` on an empty registry succeeds and
leaves the registry, config map, loop flag, playlist and cursor
unchanged, but always clears the uptime-tracking state (interval and
start time) — it is a complete no-op only when tracking is already
stopped. -/
theorem spec_C8_stop_idempotent :
    (∀ (s : EngineState) (k : Option String), (stopStreamE s k).2 = true) ∧
    (∀ (s : EngineState) (k : Option String),
      stopStreamE (stopStreamE s k).1 k = stopStreamE s k) ∧
    (∀ s : EngineState,
      stopAllStreamsE (stopAllStreamsE s).1 = stopAllStreamsE s) ∧
    (∀ s : EngineState, s.activeStreams = [] →
      (stopAllStreamsE s).2 = true ∧
      (stopAllStreamsE s).1.activeStreams = [] ∧
      (stopAllStreamsE s).1.streamConfigs = s.streamConfigs ∧
      (stopAllStreamsE s).1.loopEnabled = s.loopEnabled ∧
      (stopAllStreamsE s).1.playlist = s.playlist ∧
      (stopAllStreamsE s).1.currentVideoIndex = s.currentVideoIndex ∧
      (stopAllStreamsE s).1.uptimeIntervalActive = false ∧
      (stopAllStreamsE s).1.streamStartTime = none) ∧
    (∀ s : EngineState, s.activeStreams = [] →
      s.uptimeIntervalActive = false → s.streamStartTime = none →
      stopAllStreamsE s = (s, true)) := by
  refine ⟨?_, ?_, ?_, ?_, ?_⟩
  · intro s k
    cases k <;> rfl
  · intro s k
    cases k with
    | none => rfl
    | some key =>
      simp [stopStreamE, stopUptimeTrackingE, List.filter_filter]
  · intro s
    rfl
  · intro s h
    exact ⟨rfl, rfl, rfl, rfl, rfl, rfl, rfl, rfl⟩
  · intro s h1 h2 h3
    cases s with
    | mk a b c d e f g =>
      dsimp only at h1 h2 h3
      subst h1 h2 h3
      rfl

/-- Witness for C8 at a state with tracking already stopped. -/
theorem spec_C8_witness :
    (newEngineState.activeStreams = [] ∧
      newEngineState.uptimeIntervalActive = false ∧
      newEngineState.streamStartTime = none) ∧
    stopAllStreamsE newEngineState = (newEngineState, true) :=
  ⟨⟨rfl, rfl, rfl⟩,
    spec_C8_stop_idempotent.2.2.2.2 newEngineState rfl rfl rfl⟩

def exTickEngine : EngineState :=
  { newEngineState with
    activeStreams := ["video_2"]
    uptimeIntervalActive := true
    streamStartTime := some 0 }

/-- C9: a reconciler tick writes the status row only when the persisted
status is `'live'` and at least one session is active; when it writes, it
writes the elapsed time since session start formatted by `formatUptime`
together with a viewer count of `max 0 (50 + (jitter - 50))`, which is
never below zero (and at most 99 for jitter below 100); `formatUptime`
renders `HH:MM:SS` with minutes and seconds below 60 and every field
zero-padded to at least two characters. -/
theorem spec_C9_reconciler_tick (e : EngineState) (row : StreamStatusRow)
    (now t0 rf : Nat) :
    (uptimeTick e row now rf ≠ none →
      row.status = "live" ∧ e.activeStreams ≠ []) ∧
    (e.streamStartTime = some t0 → e.activeStreams ≠ [] →
      row.status = "live" → t0 ≤ now → rf < 100 →
      uptimeTick e row now rf =
        some (formatUptime (now - t0), max 0 (50 + ((rf : Int) - 50))) ∧
      (0 : Int) ≤ max 0 (50 + ((rf : Int) - 50)) ∧
      max 0 (50 + ((rf : Int) - 50)) ≤ 99) ∧
    (∀ ms : Nat,
      formatUptime ms =
        padStart2 (toString (ms / 1000 / 3600)) ++ ":" ++
          padStart2 (toString (ms / 1000 % 3600 / 60)) ++ ":" ++
          padStart2 (toString (ms / 1000 % 60)) ∧
      ms / 1000 % 3600 / 60 < 60 ∧ ms / 1000 % 60 < 60) ∧
    (∀ s : String, (padStart2 s).length = max 2 s.length) := by
  refine ⟨?_, ?_, ?_, ?_⟩
  · intro h
    unfold uptimeTick at h
    rcases hs : e.streamStartTime with _ | t
    · rw [hs] at h
      exact absurd rfl h
    · rw [hs] at h
      dsimp only at h
      by_cases h1 : e.activeStreams ≠ []
      · rw [if_pos h1] at h
        by_cases h2 : row.status = "live"
        · exact ⟨h2, h1⟩
        · rw [if_neg h2] at h
          exact absurd rfl h
      · rw [if_neg h1] at h
        exact absurd rfl h
  · intro hs h1 h2 ht hrf
    have hval : (50 : Int) + ((rf : Int) - 50) = (rf : Int) := by ring
    have hmax : max 0 (50 + ((rf : Int) - 50)) = (rf : Int) := by
      rw [hval]
      exact max_eq_right (by positivity)
    refine ⟨?_, ?_, ?_⟩
    · unfold uptimeTick
      rw [hs]
      dsimp only
      rw [if_pos h1, if_pos h2]
    · rw [hmax]
      positivity
    · rw [hmax]
      exact_mod_cast Nat.lt_succ_iff.mp hrf
  · intro ms
    refine ⟨rfl, ?_, ?_⟩ <;> omega
  · intro s
    unfold padStart2
    rw [String.length_append]
    show (List.replicate (2 - s.length) '0').length + s.length = _
    rw [List.length_replicate]
    omega

/-- Witness for C9 at a live row one hour, one minute and forty seconds
into a session. -/
theorem spec_C9_witness :
    (exTickEngine.streamStartTime = some 0 ∧ exLiveRow.status = "live" ∧
      (99 : Nat) < 100) ∧
    uptimeTick exTickEngine exLiveRow 3700000 99 =
      some (formatUptime (3700000 - 0), max 0 (50 + ((99 : Int) - 50))) :=
  ⟨⟨rfl, rfl, by decide⟩,
    ((spec_C9_reconciler_tick exTickEngine exLiveRow 3700000 0 99).2.1 rfl
      (by decide) rfl (by decide) (by decide)).1⟩

/-- C10: the `close` and `error` handlers of a multi-destination session
(registry key `multistream_<id>`) only delete that session's registry
entry: the ghost advancer flag stays `false` (no playlist advance, loop
mode notwithstanding), the config map, uptime-tracking state and the
whole persisted status row are untouched, and no other registry entry is
affected. -/
theorem spec_C10_multistream_handlers_frame (w : World) (vid : Nat)
    (code : Int) (m : String) :
    ((msCloseHandler w vid code).2 = false ∧
      (msCloseHandler w vid code).1.engine.activeStreams =
        w.engine.activeStreams.filter
          (· ≠ "multistream_" ++ toString vid) ∧
      (msCloseHandler w vid code).1.engine.streamConfigs =
        w.engine.streamConfigs ∧
      (msCloseHandler w vid code).1.engine.uptimeIntervalActive =
        w.engine.uptimeIntervalActive ∧
      (msCloseHandler w vid code).1.engine.streamStartTime =
        w.engine.streamStartTime ∧
      (msCloseHandler w vid code).1.engine.loopEnabled =
        w.engine.loopEnabled ∧
      (msCloseHandler w vid code).1.row = w.row) ∧
    ((msErrorHandler w vid m).2 = false ∧
      (msErrorHandler w vid m).1.engine.activeStreams =
        w.engine.activeStreams.filter
          (· ≠ "multistream_" ++ toString vid) ∧
      (msErrorHandler w vid m).1.engine.streamConfigs =
        w.engine.streamConfigs ∧
      (msErrorHandler w vid m).1.engine.uptimeIntervalActive =
        w.engine.uptimeIntervalActive ∧
      (msErrorHandler w vid m).1.engine.streamStartTime =
        w.engine.streamStartTime ∧
      (msErrorHandler w vid m).1.engine.loopEnabled =
        w.engine.loopEnabled ∧
      (msErrorHandler w vid m).1.row = w.row) :=
  ⟨⟨rfl, rfl, rfl, rfl, rfl, rfl, rfl⟩,
    ⟨rfl, rfl, rfl, rfl, rfl, rfl, rfl⟩⟩
